import Mathlib

/-!
A shallow embedding of `daemoncmd.py`: a pidfile-based daemon lifecycle
controller with operations `start`, `stop`, `restart`, `status`, plus the
helpers `getpid`, `setpid`, `running`, `daemonize` and `daemonize_command`.

Modelling conventions:
* The filesystem is a map from paths to entries (regular file with string
  content, or a non-regular entry such as a directory).
* Signal delivery (`os.kill`) is an oracle `KillOracle : Int → Nat → KillResult`
  giving, for each (pid, signal number) pair, either success or an `OSError`
  carrying an errno.  `running` probes with signal 0 (`signal.SIG_DFL` is the
  integer 0 in CPython); `stop` sends `SIGTERM` (15).
* Each lifecycle operation is a pure function from a process state `PState`
  (filesystem, accumulated stdout/stderr writes, delivered termination
  signals, daemonization bookkeeping) to an outcome (`normal` return,
  `sys.exit code`, or an uncaught Python exception) paired with the new state.
* `os.path.abspath` is modelled as the identity on an abstract path space:
  all operations resolve the pidfile path the same way, and every claim is
  stated over the already-resolved path.
* Python truthiness of the value returned by `getpid` (`None` and `0` are
  falsy) is modelled by `pyTruthy`.
-/

/-- An entry in the filesystem at some path: a regular file with string
content, or a non-regular entry (e.g. a directory), for which
`os.path.isfile` returns false. -/
inductive FsEntry where
  | file (content : String)
  | dir
  deriving DecidableEq, Repr

/-- The filesystem: a map from paths to entries (`none` = nothing exists). -/
abbrev Fs := String → Option FsEntry

/-- Outcome of one `os.kill(pid, sig)` call: success, or an `OSError`
carrying an errno. -/
inductive KillResult where
  | ok
  | err (errno : Nat)
  deriving DecidableEq, Repr

/-- The signal-delivery oracle: for each (pid, signal number) pair, the
outcome `os.kill` would produce in the current OS environment. -/
abbrev KillOracle := Int → Nat → KillResult

/-- errno for "No such process". -/
def ESRCH : Nat := 3

/-- `signal.SIGTERM`. -/
def SIGTERM : Nat := 15

/-- `signal.SIG_DFL`, which equals the integer 0 in CPython, so
`os.kill(pid, signal.SIG_DFL)` is the null-signal existence probe. -/
def SIG_DFL : Nat := 0

/-- Python exceptions the modelled code can raise uncaught. -/
inductive PyExn where
  | valueError
  deriving DecidableEq, Repr

/-- How an operation finishes: fall off the end, `sys.exit code`, or an
uncaught exception propagating to the caller. -/
inductive POutcome where
  | normal
  | exitCode (c : Nat)
  | raised (e : PyExn)
  deriving DecidableEq, Repr

/-- `os.path.abspath`, modelled as the identity on an abstract space of
already-absolute paths (all operations resolve the pidfile identically). -/
def abspath (p : String) : String := p

/-- A Python whitespace character, as stripped by `str.strip()`. -/
def isPySpace (c : Char) : Bool :=
  c = ' ' || c = '\t' || c = '\n' || c = '\x0d' || c = '\x0b' || c = '\x0c'

/-- `str.strip()`: drop leading and trailing whitespace. -/
def pyStrip (s : String) : String :=
  String.mk (((s.data.dropWhile isPySpace).reverse.dropWhile isPySpace).reverse)

/-- Value of a nonempty all-digit character list, `none` otherwise. -/
def digitsVal (l : List Char) : Option Nat :=
  if l ≠ [] ∧ l.all Char.isDigit then
    some (l.foldl (fun a c => a * 10 + (c.toNat - 48)) 0)
  else none

/-- Python `int(s)` on an already-stripped string: an optional sign followed
by one or more decimal digits; anything else raises `ValueError`. -/
def parseInt (s : String) : Option Int :=
  match s.data with
  | '-' :: rest => (digitsVal rest).map (fun n => -(n : Int))
  | '+' :: rest => (digitsVal rest).map (fun n => (n : Int))
  | l => (digitsVal l).map (fun n => (n : Int))

/-- Python truthiness of the pid returned by `getpid`: `None` and `0` are
falsy, every other integer is truthy. -/
def pyTruthy : Option Int → Bool
  | none => false
  | some n => decide (n ≠ 0)

/-- `getpid(pidfile)`: `None` unless `os.path.isfile(pidfile)`; otherwise
`int(fh.read().strip())`, whose failure (`ValueError`) propagates. -/
def getpid (fs : Fs) (pidfile : String) : Except PyExn (Option Int) :=
  match fs pidfile with
  | some (FsEntry.file c) =>
    match parseInt (pyStrip c) with
    | some n => Except.ok (some n)
    | none => Except.error PyExn.valueError
  | _ => Except.ok none

/-- The filesystem after `setpid(pid, pidfile)`: the pidfile now holds the
decimal pid followed by a newline, all other paths unchanged. -/
def setpidFs (pid : Int) (pidfile : String) (fs : Fs) : Fs :=
  fun p => if p = pidfile then some (FsEntry.file (toString pid ++ "\n")) else fs p

/-- `running(pid)`: `False` if `pid is None`; otherwise probe with
`os.kill(pid, signal.SIG_DFL)` and return `False` exactly when that raises
`OSError` with `errno == errno.ESRCH`; every other outcome (success included)
yields `True`. -/
def running (k : KillOracle) : Option Int → Bool
  | none => false
  | some p =>
    match k p SIG_DFL with
    | KillResult.ok => true
    | KillResult.err e => decide (e ≠ ESRCH)

/-- The observable state threaded through the lifecycle operations. -/
structure PState where
  fs : Fs
  out : List String
  err : List String
  /-- pids to which a `SIGTERM` was successfully delivered. -/
  terms : List Int
  /-- whether the daemonization sequence (double fork, setsid, stream
  redirection) has been performed. -/
  daemonized : Bool
  /-- the stream-redirection targets passed to `daemonize`, once invoked. -/
  streams : Option (String × String × String)
  /-- the argv the daemon process was replaced with via `os.execvp`. -/
  execed : Option (List String)

/-- A fresh state over a given filesystem. -/
def stateInit (fs : Fs) : PState :=
  { fs := fs, out := [], err := [], terms := [], daemonized := false,
    streams := none, execed := none }

def startingMsg : String := "Starting process.\n"

def startAbortMsg (pf : String) (p : Int) : String :=
  "Start aborted since pid file \x27" ++ pf ++ "\x27 exists and pid \x27"
    ++ toString p ++ "\x27 is running.\n"

def stopMissingMsg (pf : String) : String :=
  "Warning: Could not stop process because pid file \x27" ++ pf
    ++ "\x27 is missing.\n"

def stopNotRunningMsg (p : Int) (pf : String) : String :=
  "Warning: pid \"" ++ toString p ++ "\" in pid file \"" ++ pf
    ++ "\" is already not running.\n"

def stopStoppingMsg (p : Int) : String :=
  "Stopping process. pid=" ++ toString p ++ "\n"

/-- Abstract rendering of `str(OSError)` in stop's failure message. -/
def osErrorText (e : Nat) : String := "[Errno " ++ toString e ++ "]"

def stopFailMsg (p : Int) (e : Nat) : String :=
  "Failed to terminate pid \"" ++ toString p ++ "\".  Exception: "
    ++ osErrorText e ++ ".\n"

def statusRunningMsg (p : Int) : String :=
  "process running; pid=" ++ toString p ++ "\n"

def statusStoppedMsg : String := "process stopped\n"

/-- The net effect of `daemonize_command(argv, pidfile, stdin, stdout,
stderr)`, viewed from the surviving (grandchild) daemon process: after
`daemonize` (recorded via `daemonized`/`streams`), if the pidfile path is
truthy (nonempty) write its own pid `dpid` there via `setpid`, then replace
the process image with `argv` via `os.execvp`.  The launcher's intermediate
parents exit 0; overall the operation completes without error, modelled as
`POutcome.normal`. -/
def daemonize_commandRun (dpid : Int) (argv : List String) (pidfile : String)
    (sin sout serr : String) (s : PState) : POutcome × PState :=
  let pf := abspath pidfile
  let s1 := { s with daemonized := true, streams := some (sin, sout, serr) }
  let s2 := if pf ≠ "" then { s1 with fs := setpidFs dpid pf s1.fs } else s1
  (POutcome.normal, { s2 with execed := some argv })

/-- `start(argv, pidfile, stdin, stdout, stderr)`: read the pid; if it is
truthy and `running`, write the abort message to stderr and `sys.exit(1)`
with no other effect; otherwise print `Starting process.` and invoke
`daemonize_command`.  `dpid` is the pid the surviving daemon process will
have. -/
def start (k : KillOracle) (dpid : Int) (argv : List String) (pidfile : String)
    (sin sout serr : String) (s : PState) : POutcome × PState :=
  let pf := abspath pidfile
  match getpid s.fs pf with
  | Except.error e => (POutcome.raised e, s)
  | Except.ok pid =>
    match pid with
    | some p =>
      if p ≠ 0 ∧ running k (some p) = true then
        (POutcome.exitCode 1, { s with err := s.err ++ [startAbortMsg pf p] })
      else
        daemonize_commandRun dpid argv pf sin sout serr
          { s with out := s.out ++ [startingMsg] }
    | none =>
      daemonize_commandRun dpid argv pf sin sout serr
        { s with out := s.out ++ [startingMsg] }

/-- `stop(pidfile)`: read the pid.  Falsy pid (missing file, unreadable path
or content `0`) warns that the pid file is missing; a truthy pid that is not
`running` warns it is already not running; otherwise print the stopping
message, send `SIGTERM`, and on any `OSError` (the `except` clause does not
inspect the errno) write the failure message and `sys.exit(1)`.  The
post-signal `time.sleep(1)` grace pause has no modelled effect. -/
def stop (k : KillOracle) (pidfile : String) (s : PState) : POutcome × PState :=
  let pf := abspath pidfile
  match getpid s.fs pf with
  | Except.error e => (POutcome.raised e, s)
  | Except.ok pid =>
    match pid with
    | none => (POutcome.normal, { s with err := s.err ++ [stopMissingMsg pf] })
    | some p =>
      if p = 0 then
        (POutcome.normal, { s with err := s.err ++ [stopMissingMsg pf] })
      else if running k (some p) = false then
        (POutcome.normal, { s with err := s.err ++ [stopNotRunningMsg p pf] })
      else
        let s1 := { s with out := s.out ++ [stopStoppingMsg p] }
        match k p SIGTERM with
        | KillResult.ok =>
          (POutcome.normal, { s1 with terms := s1.terms ++ [p] })
        | KillResult.err e =>
          (POutcome.exitCode 1, { s1 with err := s1.err ++ [stopFailMsg p e] })

/-- `status(pidfile)`: read the pid; print the running line (with the pid)
when it is truthy and `running`, the stopped line otherwise. -/
def status (k : KillOracle) (pidfile : String) (s : PState) : POutcome × PState :=
  let pf := abspath pidfile
  match getpid s.fs pf with
  | Except.error e => (POutcome.raised e, s)
  | Except.ok pid =>
    match pid with
    | some p =>
      if p ≠ 0 ∧ running k (some p) = true then
        (POutcome.normal, { s with out := s.out ++ [statusRunningMsg p] })
      else
        (POutcome.normal, { s with out := s.out ++ [statusStoppedMsg] })
    | none => (POutcome.normal, { s with out := s.out ++ [statusStoppedMsg] })

/-- `restart(argv, pidfile, stdin, stdout, stderr)`: the two statements
`stop(pidfile)` then `start(argv, pidfile, stdin, stdout, stderr)`; an abort
(`sys.exit`) or exception in `stop` propagates before `start` runs. -/
def restart (k : KillOracle) (dpid : Int) (argv : List String)
    (pidfile : String) (sin sout serr : String) (s : PState) :
    POutcome × PState :=
  match stop k pidfile s with
  | (POutcome.normal, s1) => start k dpid argv pidfile sin sout serr s1
  | r => r

/-- Sequential composition of two operations: run the second only when the
first finishes normally (a `sys.exit` or exception short-circuits). -/
def andThen (f g : PState → POutcome × PState) (s : PState) :
    POutcome × PState :=
  match f s with
  | (POutcome.normal, s1) => g s1
  | r => r

/-- Modelled from the spec: "restart(spec, pidfile): stop(pidfile)
unconditionally, then start(spec, pidfile)" — the bare sequential
composition of `stop` and `start`, nothing else. -/
def restartOfSpec (k : KillOracle) (dpid : Int) (argv : List String)
    (pidfile : String) (sin sout serr : String) : PState → POutcome × PState :=
  andThen (stop k pidfile) (start k dpid argv pidfile sin sout serr)

/-! Concrete environments used by witnesses and counterexamples. -/

/-- A filesystem with nothing at any path. -/
def fsEmpty : Fs := fun _ => none

/-- A pidfile at `/p` holding pid 7. -/
def fsPid7 : Fs := fun q => if q = "/p" then some (FsEntry.file "7\n") else none

/-- A pidfile at `/p` holding 0. -/
def fsZeroPid : Fs := fun q => if q = "/p" then some (FsEntry.file "0\n") else none

/-- A pidfile at `/p` holding non-numeric text. -/
def fsGarbage : Fs :=
  fun q => if q = "/p" then some (FsEntry.file "not a pid") else none

/-- A pidfile at `/p` holding the negative integer -5. -/
def fsNegPid : Fs := fun q => if q = "/p" then some (FsEntry.file "-5") else none

/-- A directory at `/p`. -/
def fsDirAt : Fs := fun q => if q = "/p" then some FsEntry.dir else none

/-- Every signal delivery succeeds. -/
def oracleOk : KillOracle := fun _ _ => KillResult.ok

/-- Every signal delivery fails with `ESRCH`. -/
def oracleESRCH : KillOracle := fun _ _ => KillResult.err ESRCH

/-- The null-signal probe succeeds but `SIGTERM` delivery fails with `ESRCH`:
the process vanishes between the liveness probe and the termination signal. -/
def oracleVanish : KillOracle :=
  fun _ sig => if sig = SIGTERM then KillResult.err ESRCH else KillResult.ok

/-- One step of the daemonization sequence, as experienced by the process
that survives it. -/
inductive DEvent where
  /-- the first `os.fork()`; the parent exits 0 and never continues. -/
  | forkFirst
  /-- `os.chdir("/")`. -/
  | chdirRoot
  /-- `os.umask(0)`. -/
  | umaskZero
  /-- `os.setsid()`. -/
  | setsid
  /-- the second `os.fork()`; the session-leader parent exits 0. -/
  | forkSecond
  /-- opening the three redirection targets. -/
  | openStreams (sin sout serr : String)
  /-- flushing any buffered output on the original stdout/stderr. -/
  | flushStd
  /-- `os.dup2` of the three new files onto the standard streams. -/
  | dupStreams
  /-- `setpid(pid, path)`: the process records pid `pid` at `path`. -/
  | writePid (pid : Int) (path : String)
  /-- `os.execvp(argv[0], argv)`. -/
  | execvp (argv : List String)
  deriving DecidableEq, Repr

/-- The ordered events of `daemonize(stdin, stdout, stderr)` along the path
of the surviving (grandchild) process when both forks succeed: first fork
(parent exits), decouple (chdir "/", umask 0, setsid), second fork (parent
exits), open the redirection targets, flush, dup2 onto the standard
streams, return. -/
def daemonizeEvents (sin sout serr : String) : List DEvent :=
  [DEvent.forkFirst, DEvent.chdirRoot, DEvent.umaskZero, DEvent.setsid,
   DEvent.forkSecond,
   DEvent.openStreams (abspath sin) (abspath sout) (abspath serr),
   DEvent.flushStd, DEvent.dupStreams]

/-- The ordered events of `daemonize_command(argv, pidfile, ...)` in the
surviving daemon process whose own pid is `selfPid`: `daemonize`, then — if
the pidfile path is truthy — `setpid(os.getpid(), pidfile)`, then
`os.execvp(argv[0], argv)`. -/
def daemonize_commandEvents (selfPid : Int) (argv : List String)
    (pidfile sin sout serr : String) : List DEvent :=
  daemonizeEvents sin sout serr
    ++ (if abspath pidfile ≠ "" then
          [DEvent.writePid selfPid (abspath pidfile)] else [])
    ++ [DEvent.execvp argv]

/-- The state with the entry at path `pf` removed from the filesystem. -/
def erasePf (pf : String) (s : PState) : PState :=
  { s with fs := fun q => if q = pf then none else s.fs q }

/-- Everything an external caller can observe about an operation's result
except the filesystem: outcome, stdout, stderr, delivered terminations,
daemonization, stream targets, exec'd argv. -/
def obsOf (r : POutcome × PState) :
    POutcome × List String × List String × List Int × Bool
      × Option (String × String × String) × Option (List String) :=
  (r.1, r.2.out, r.2.err, r.2.terms, r.2.daemonized, r.2.streams, r.2.execed)

/-! ## C1 -/

/-- C1 counterexample: a pidfile whose content is the negative integer `-5`
exists and is not a well-formed positive integer, yet `getpid` raises no
parse error — it returns the pid `-5` — and `status`, `stop` and `start`
all complete normally instead of failing with a hard parse error. -/
theorem C1_counterexample :
    getpid fsNegPid "/p" = Except.ok (some (-5)) ∧
    (status oracleESRCH "/p" (stateInit fsNegPid)).1 = POutcome.normal ∧
    (stop oracleESRCH "/p" (stateInit fsNegPid)).1 = POutcome.normal ∧
    (start oracleESRCH 9 ["/bin/sleep", "100"] "/p" "/dev/null" "/dev/null"
      "/dev/null" (stateInit fsNegPid)).1 = POutcome.normal :=
  ⟨rfl, rfl, rfl, rfl⟩

/-- C1 (amended): for every pidfile whose file exists but whose stripped
content does not parse as an optionally-signed decimal integer — e.g.
non-numeric text or an empty file — `getpid` fails with a `ValueError` and
every operation that reads the pidfile (start, stop, restart, status)
propagates that hard parse error rather than treating the pid as absent.
Content that parses as a non-positive integer (negative, or zero) is not a
parse error: `getpid` returns that integer. -/
theorem C1_amended_parse_error_propagates (k : KillOracle) (dpid : Int)
    (argv : List String) (pf sin sout serr : String) (s : PState) (c : String)
    (hf : s.fs (abspath pf) = some (FsEntry.file c))
    (hp : parseInt (pyStrip c) = none) :
    getpid s.fs (abspath pf) = Except.error PyExn.valueError ∧
    (start k dpid argv pf sin sout serr s).1 = POutcome.raised PyExn.valueError ∧
    (stop k pf s).1 = POutcome.raised PyExn.valueError ∧
    (status k pf s).1 = POutcome.raised PyExn.valueError ∧
    (restart k dpid argv pf sin sout serr s).1 = POutcome.raised PyExn.valueError := by
  have hg : getpid s.fs (abspath pf) = Except.error PyExn.valueError := by
    simp [getpid, hf, hp]
  have hstop : stop k pf s = (POutcome.raised PyExn.valueError, s) := by
    simp [stop, hg]
  refine ⟨hg, ?_, ?_, ?_, ?_⟩
  · simp [start, hg]
  · simp [hstop]
  · simp [status, hg]
  · simp [restart, hstop]

/-- Witness for C1 (amended) at the concrete pidfile holding `"not a pid"`. -/
theorem C1_amended_witness :
    getpid (stateInit fsGarbage).fs (abspath "/p") = Except.error PyExn.valueError ∧
    (start oracleOk 9 ["/bin/sleep"] "/p" "/dev/null" "/dev/null" "/dev/null"
      (stateInit fsGarbage)).1 = POutcome.raised PyExn.valueError ∧
    (stop oracleOk "/p" (stateInit fsGarbage)).1 = POutcome.raised PyExn.valueError ∧
    (status oracleOk "/p" (stateInit fsGarbage)).1 = POutcome.raised PyExn.valueError ∧
    (restart oracleOk 9 ["/bin/sleep"] "/p" "/dev/null" "/dev/null" "/dev/null"
      (stateInit fsGarbage)).1 = POutcome.raised PyExn.valueError :=
  C1_amended_parse_error_propagates oracleOk 9 ["/bin/sleep"] "/p" "/dev/null"
    "/dev/null" "/dev/null" (stateInit fsGarbage) "not a pid" rfl (by decide)

/-! ## C2 -/

/-- C2: the liveness probe `running` returns false in exactly two cases —
the pid is absent (`None`), or the null-signal delivery fails with `ESRCH`
(no such process) — and returns true for every other outcome, including any
other delivery failure, so ambiguous failures are reported as alive. -/
theorem C2_running_false_iff (k : KillOracle) (pid : Option Int) :
    running k pid = false ↔
      pid = none ∨ ∃ p, pid = some p ∧ k p SIG_DFL = KillResult.err ESRCH := by
  cases pid with
  | none => simp [running]
  | some p =>
    cases hk : k p SIG_DFL with
    | ok => simp [running, hk]
    | err e => simp [running, hk]

/-! ## C3 -/

/-- C3: when the pidfile holds a truthy pid whose liveness probe is true,
`start` writes the "already running" abort message to stderr and exits with
status 1, with no other side effect: the filesystem (hence the pidfile) is
unchanged, no daemonization (fork) occurs, no termination signal is sent and
no process image is replaced. -/
theorem C3_start_aborts_when_running (k : KillOracle) (dpid : Int)
    (argv : List String) (pf sin sout serr : String) (s : PState) (p : Int)
    (hg : getpid s.fs (abspath pf) = Except.ok (some p))
    (hp : p ≠ 0) (hr : running k (some p) = true) :
    start k dpid argv pf sin sout serr s =
      (POutcome.exitCode 1,
        { s with err := s.err ++ [startAbortMsg (abspath pf) p] }) := by
  simp [start, hg, hp, hr]

/-- Witness for C3: pidfile holding pid 7 with every probe succeeding. -/
theorem C3_witness :
    start oracleOk 9 ["/bin/sleep", "100"] "/p" "/dev/null" "/dev/null"
        "/dev/null" (stateInit fsPid7) =
      (POutcome.exitCode 1,
        { stateInit fsPid7 with
            err := (stateInit fsPid7).err ++ [startAbortMsg (abspath "/p") 7] }) :=
  C3_start_aborts_when_running oracleOk 9 ["/bin/sleep", "100"] "/p"
    "/dev/null" "/dev/null" "/dev/null" (stateInit fsPid7) 7 rfl
    (by decide) (by decide)

/-! ## C4 -/

/-- C4 counterexample: with pid 7 recorded, the liveness probe succeeds but
the `SIGTERM` delivery fails with `ESRCH` (the process vanished in between:
a failure *because the process no longer exists*), and `stop` nevertheless
exits with status 1 — the `except OSError` clause does not inspect the
errno, contradicting "a delivery failure because the process no longer
exists does not cause a nonzero exit". -/
theorem C4_counterexample :
    running oracleVanish (some 7) = true ∧
    oracleVanish 7 SIGTERM = KillResult.err ESRCH ∧
    (stop oracleVanish "/p" (stateInit fsPid7)).1 = POutcome.exitCode 1 :=
  ⟨by decide, by decide, rfl⟩

/-- C4 (amended): when the recorded pid is probed as running and the
termination-signal delivery then fails, `stop` writes the failure message
and exits nonzero for *every* failure reason — including "no such
process" — since the exception handler does not inspect the errno. -/
theorem C4_amended_stop_failure_always_exits (k : KillOracle) (pf : String)
    (s : PState) (p : Int) (e : Nat)
    (hg : getpid s.fs (abspath pf) = Except.ok (some p)) (hp : p ≠ 0)
    (hr : running k (some p) = true) (hk : k p SIGTERM = KillResult.err e) :
    stop k pf s =
      (POutcome.exitCode 1,
        { s with out := s.out ++ [stopStoppingMsg p],
                 err := s.err ++ [stopFailMsg p e] }) := by
  simp [stop, hg, hp, hr, hk]

/-- Witness for C4 (amended) at pid 7 with the vanishing-process oracle. -/
theorem C4_amended_witness :
    stop oracleVanish "/p" (stateInit fsPid7) =
      (POutcome.exitCode 1,
        { stateInit fsPid7 with
            out := (stateInit fsPid7).out ++ [stopStoppingMsg 7],
            err := (stateInit fsPid7).err ++ [stopFailMsg 7 ESRCH] }) :=
  C4_amended_stop_failure_always_exits oracleVanish "/p" (stateInit fsPid7)
    7 ESRCH rfl (by decide) (by decide) (by decide)

/-! ## C5 -/

/-- C5: within a single start, the pidfile write happens strictly after the
whole detachment sequence (both forks, setsid, stream redirection) and
strictly before the exec replacement, and it is performed by the surviving
detached process recording its own pid: the event trace decomposes as
detachment ++ [writePid selfPid pidfile, execvp argv], and every `writePid`
event in the trace records `selfPid` at the pidfile path. -/
theorem C5_pid_written_after_detach_before_exec (selfPid : Int)
    (argv : List String) (pidfile sin sout serr : String)
    (hpf : abspath pidfile ≠ "") :
    daemonize_commandEvents selfPid argv pidfile sin sout serr =
      daemonizeEvents sin sout serr
        ++ [DEvent.writePid selfPid (abspath pidfile), DEvent.execvp argv] ∧
    ∀ p pth, DEvent.writePid p pth ∈
        daemonize_commandEvents selfPid argv pidfile sin sout serr →
      p = selfPid ∧ pth = abspath pidfile := by
  constructor
  · simp [daemonize_commandEvents, hpf]
  · intro p pth hmem
    simp [daemonize_commandEvents, daemonizeEvents, hpf] at hmem
    exact hmem

/-- Witness for C5 at a concrete pidfile path. -/
theorem C5_witness :
    daemonize_commandEvents 9 ["/bin/sleep", "100"] "/tmp/d.pid" "/dev/null"
        "/dev/null" "/dev/null" =
      daemonizeEvents "/dev/null" "/dev/null" "/dev/null"
        ++ [DEvent.writePid 9 (abspath "/tmp/d.pid"),
            DEvent.execvp ["/bin/sleep", "100"]] ∧
    ∀ p pth, DEvent.writePid p pth ∈
        daemonize_commandEvents 9 ["/bin/sleep", "100"] "/tmp/d.pid"
          "/dev/null" "/dev/null" "/dev/null" →
      p = 9 ∧ pth = abspath "/tmp/d.pid" :=
  C5_pid_written_after_detach_before_exec 9 ["/bin/sleep", "100"] "/tmp/d.pid"
    "/dev/null" "/dev/null" "/dev/null" (by decide)

/-! ## C6 -/

/-- C6: `restart` is exactly the sequential composition of `stop` followed
by `start` with the same arguments: `stop` runs unconditionally first, then
`start`, with nothing else added by `restart` itself (an exit or exception
raised by `stop` propagates before `start` runs, as in the source where the
two calls are consecutive statements). -/
theorem C6_restart_is_stop_then_start (k : KillOracle) (dpid : Int)
    (argv : List String) (pidfile sin sout serr : String) (s : PState) :
    restart k dpid argv pidfile sin sout serr s =
      restartOfSpec k dpid argv pidfile sin sout serr s := rfl

/-! ## C7 -/

/-- C7: `stop` never modifies the filesystem (in particular it never deletes
the pidfile) under any outcome; and whenever the pid read from the pidfile
is falsy (missing file) or not running, `stop` finishes normally having
appended exactly one warning line to stderr and nothing else — no
termination signal, no state change — and a second `stop` from the
resulting state produces the same warning again (idempotence). -/
theorem C7_stop_frame_and_idempotent_warning (k : KillOracle) (pf : String)
    (s : PState) :
    (stop k pf s).2.fs = s.fs ∧
    (∀ pid, getpid s.fs (abspath pf) = Except.ok pid →
      (pyTruthy pid && running k pid) = false →
      ∃ w, stop k pf s = (POutcome.normal, { s with err := s.err ++ [w] }) ∧
        stop k pf { s with err := s.err ++ [w] } =
          (POutcome.normal, { s with err := s.err ++ [w, w] })) := by
  constructor
  · cases hg : getpid s.fs (abspath pf) with
    | error e => simp [stop, hg]
    | ok pid =>
      cases pid with
      | none => simp [stop, hg]
      | some p =>
        by_cases hp : p = 0
        · simp [stop, hg, hp]
        · cases hr : running k (some p) with
          | false => simp [stop, hg, hp, hr]
          | true =>
            cases hk : k p SIGTERM with
            | ok => simp [stop, hg, hp, hr, hk]
            | err e => simp [stop, hg, hp, hr, hk]
  · intro pid hg hfalse
    cases pid with
    | none =>
      refine ⟨stopMissingMsg (abspath pf), ?_, ?_⟩ <;>
        simp [stop, hg, List.append_assoc]
    | some p =>
      by_cases hp : p = 0
      · subst hp
        refine ⟨stopMissingMsg (abspath pf), ?_, ?_⟩ <;>
          simp [stop, hg, List.append_assoc]
      · have hr : running k (some p) = false := by
          simpa [pyTruthy, hp] using hfalse
        refine ⟨stopNotRunningMsg p (abspath pf), ?_, ?_⟩ <;>
          simp [stop, hg, hp, hr, List.append_assoc]

/-- Witness for C7: stopping with no pidfile present warns that the pid
file is missing, twice in a row, changing nothing. -/
theorem C7_witness :
    (stop oracleOk "/p" (stateInit fsEmpty)).2.fs = (stateInit fsEmpty).fs ∧
    ∃ w, stop oracleOk "/p" (stateInit fsEmpty) =
        (POutcome.normal,
          { stateInit fsEmpty with err := (stateInit fsEmpty).err ++ [w] }) ∧
      stop oracleOk "/p"
          { stateInit fsEmpty with err := (stateInit fsEmpty).err ++ [w] } =
        (POutcome.normal,
          { stateInit fsEmpty with err := (stateInit fsEmpty).err ++ [w, w] }) := by
  have h := C7_stop_frame_and_idempotent_warning oracleOk "/p" (stateInit fsEmpty)
  exact ⟨h.1, h.2 none rfl rfl⟩

/-! ## C8 -/

/-- C8: whenever the pidfile is readable (no parse error), `status` finishes
normally having appended exactly one line to stdout and changed nothing
else: the running line carrying the pid when the pid is truthy and its
liveness probe is true, the stopped line otherwise; and on a path at which
nothing exists it reports the stopped line. -/
theorem C8_status_prints_one_line (k : KillOracle) (pf : String) (s : PState)
    (pid : Option Int) (hg : getpid s.fs (abspath pf) = Except.ok pid) :
    ∃ line,
      status k pf s = (POutcome.normal, { s with out := s.out ++ [line] }) ∧
      ((pyTruthy pid && running k pid) = true →
        ∃ p, pid = some p ∧ line = statusRunningMsg p) ∧
      ((pyTruthy pid && running k pid) = false → line = statusStoppedMsg) ∧
      (s.fs (abspath pf) = none → line = statusStoppedMsg) := by
  cases pid with
  | none =>
    exact ⟨statusStoppedMsg, by simp [status, hg], by simp [pyTruthy],
      fun _ => rfl, fun _ => rfl⟩
  | some p =>
    by_cases hp : p = 0
    · subst hp
      exact ⟨statusStoppedMsg, by simp [status, hg], by simp [pyTruthy],
        fun _ => rfl, fun _ => rfl⟩
    · cases hr : running k (some p) with
      | false =>
        refine ⟨statusStoppedMsg, by simp [status, hg, hp, hr], ?_,
          fun _ => rfl, fun _ => rfl⟩
        intro habs
        simp at habs
      | true =>
        refine ⟨statusRunningMsg p, by simp [status, hg, hp, hr], ?_, ?_, ?_⟩
        · exact fun _ => ⟨p, rfl, rfl⟩
        · intro habs
          simp [pyTruthy, hp] at habs
        · intro hfs
          have : (Except.ok none : Except PyExn (Option Int)) =
              Except.ok (some p) := by
            rw [← hg]; simp [getpid, hfs]
          simp at this

/-- Witness for C8 at a path that has never existed: status reports the
stopped line. -/
theorem C8_witness :
    ∃ line,
      status oracleOk "/q" (stateInit fsEmpty) =
        (POutcome.normal,
          { stateInit fsEmpty with out := (stateInit fsEmpty).out ++ [line] }) ∧
      ((pyTruthy none && running oracleOk none) = true →
        ∃ p, (none : Option Int) = some p ∧ line = statusRunningMsg p) ∧
      ((pyTruthy none && running oracleOk none) = false →
        line = statusStoppedMsg) ∧
      ((stateInit fsEmpty).fs (abspath "/q") = none → line = statusStoppedMsg) :=
  C8_status_prints_one_line oracleOk "/q" (stateInit fsEmpty) none rfl

/-- The observable result of `daemonize_commandRun`, independent of whether
the pidfile path is truthy: daemonization happened with the given stream
targets and the process image was replaced by `argv`; stdout, stderr and
delivered terminations are untouched. -/
theorem obsOf_daemonize_commandRun (dpid : Int) (argv : List String)
    (pidfile sin sout serr : String) (s : PState) :
    obsOf (daemonize_commandRun dpid argv pidfile sin sout serr s) =
      (POutcome.normal, s.out, s.err, s.terms, true, some (sin, sout, serr),
        some argv) := by
  by_cases h : abspath pidfile = "" <;> simp [daemonize_commandRun, obsOf, h]

/-! ## C9 -/

/-- C9: a pidfile whose content parses to the integer 0 is indistinguishable
from a missing pidfile: `getpid` returns 0 (parse succeeds), which every
caller tests for truthiness, so `start` proceeds exactly as when stopped
(straight into daemonization), `status` prints the stopped line, `stop`
warns that the pid file is missing even though the file exists and parsed
successfully — and each operation's observable result (everything but the
filesystem entry itself) coincides with its result on the state with the
pidfile erased. -/
theorem C9_zero_pid_as_missing (k : KillOracle) (dpid : Int)
    (argv : List String) (pf sin sout serr : String) (s : PState) (c : String)
    (hf : s.fs (abspath pf) = some (FsEntry.file c))
    (hc : parseInt (pyStrip c) = some 0) :
    getpid s.fs (abspath pf) = Except.ok (some 0) ∧
    start k dpid argv pf sin sout serr s =
      daemonize_commandRun dpid argv (abspath pf) sin sout serr
        { s with out := s.out ++ [startingMsg] } ∧
    status k pf s =
      (POutcome.normal, { s with out := s.out ++ [statusStoppedMsg] }) ∧
    stop k pf s =
      (POutcome.normal, { s with err := s.err ++ [stopMissingMsg (abspath pf)] }) ∧
    obsOf (start k dpid argv pf sin sout serr (erasePf (abspath pf) s)) =
      obsOf (start k dpid argv pf sin sout serr s) ∧
    obsOf (status k pf (erasePf (abspath pf) s)) = obsOf (status k pf s) ∧
    obsOf (stop k pf (erasePf (abspath pf) s)) = obsOf (stop k pf s) := by
  have hg : getpid s.fs (abspath pf) = Except.ok (some 0) := by
    simp [getpid, hf, hc]
  have hgE : getpid (fun q => if q = abspath pf then none else s.fs q)
      (abspath pf) = Except.ok none := by
    simp [getpid]
  refine ⟨hg, ?_, ?_, ?_, ?_, ?_, ?_⟩
  · simp [start, hg]
  · simp [status, hg]
  · simp [stop, hg]
  · have e1 : start k dpid argv pf sin sout serr (erasePf (abspath pf) s) =
        daemonize_commandRun dpid argv (abspath pf) sin sout serr
          { erasePf (abspath pf) s with
              out := (erasePf (abspath pf) s).out ++ [startingMsg] } := by
      simp [start, erasePf, hgE]
    have e2 : start k dpid argv pf sin sout serr s =
        daemonize_commandRun dpid argv (abspath pf) sin sout serr
          { s with out := s.out ++ [startingMsg] } := by
      simp [start, hg]
    rw [e1, e2, obsOf_daemonize_commandRun, obsOf_daemonize_commandRun]
    rfl
  · simp [status, hg, erasePf, hgE, obsOf]
  · simp [stop, hg, erasePf, hgE, obsOf]

/-- Witness for C9 at the concrete pidfile holding `"0\n"`. -/
theorem C9_witness :
    getpid (stateInit fsZeroPid).fs (abspath "/p") = Except.ok (some 0) ∧
    start oracleOk 9 ["/bin/sleep"] "/p" "/dev/null" "/dev/null" "/dev/null"
        (stateInit fsZeroPid) =
      daemonize_commandRun 9 ["/bin/sleep"] (abspath "/p") "/dev/null"
        "/dev/null" "/dev/null"
        { stateInit fsZeroPid with
            out := (stateInit fsZeroPid).out ++ [startingMsg] } ∧
    status oracleOk "/p" (stateInit fsZeroPid) =
      (POutcome.normal,
        { stateInit fsZeroPid with
            out := (stateInit fsZeroPid).out ++ [statusStoppedMsg] }) ∧
    stop oracleOk "/p" (stateInit fsZeroPid) =
      (POutcome.normal,
        { stateInit fsZeroPid with
            err := (stateInit fsZeroPid).err ++ [stopMissingMsg (abspath "/p")] }) ∧
    obsOf (start oracleOk 9 ["/bin/sleep"] "/p" "/dev/null" "/dev/null"
        "/dev/null" (erasePf (abspath "/p") (stateInit fsZeroPid))) =
      obsOf (start oracleOk 9 ["/bin/sleep"] "/p" "/dev/null" "/dev/null"
        "/dev/null" (stateInit fsZeroPid)) ∧
    obsOf (status oracleOk "/p" (erasePf (abspath "/p") (stateInit fsZeroPid))) =
      obsOf (status oracleOk "/p" (stateInit fsZeroPid)) ∧
    obsOf (stop oracleOk "/p" (erasePf (abspath "/p") (stateInit fsZeroPid))) =
      obsOf (stop oracleOk "/p" (stateInit fsZeroPid)) :=
  C9_zero_pid_as_missing oracleOk 9 ["/bin/sleep"] "/p" "/dev/null"
    "/dev/null" "/dev/null" (stateInit fsZeroPid) "0\n" rfl (by decide)

/-! ## C10 -/

/-- C10: when the path exists but is not a regular file (e.g. a directory),
`getpid` returns no pid — never a parse error, because `os.path.isfile` is
checked before opening — and every operation treats the pidfile as absent:
`start` proceeds straight into daemonization, `status` prints the stopped
line, `stop` warns that the pid file is missing, and `restart` is `stop`'s
warning followed by `start` from the warned state. -/
theorem C10_nonregular_path_as_absent (k : KillOracle) (dpid : Int)
    (argv : List String) (pf sin sout serr : String) (s : PState)
    (hf : s.fs (abspath pf) = some FsEntry.dir) :
    getpid s.fs (abspath pf) = Except.ok none ∧
    start k dpid argv pf sin sout serr s =
      daemonize_commandRun dpid argv (abspath pf) sin sout serr
        { s with out := s.out ++ [startingMsg] } ∧
    status k pf s =
      (POutcome.normal, { s with out := s.out ++ [statusStoppedMsg] }) ∧
    stop k pf s =
      (POutcome.normal,
        { s with err := s.err ++ [stopMissingMsg (abspath pf)] }) ∧
    restart k dpid argv pf sin sout serr s =
      start k dpid argv pf sin sout serr
        { s with err := s.err ++ [stopMissingMsg (abspath pf)] } := by
  have hg : getpid s.fs (abspath pf) = Except.ok none := by
    simp [getpid, hf]
  have hstop : stop k pf s =
      (POutcome.normal,
        { s with err := s.err ++ [stopMissingMsg (abspath pf)] }) := by
    simp [stop, hg]
  refine ⟨hg, ?_, ?_, hstop, ?_⟩
  · simp [start, hg]
  · simp [status, hg]
  · simp [restart, hstop]

/-- Witness for C10 at a directory at `/p`. -/
theorem C10_witness :
    getpid (stateInit fsDirAt).fs (abspath "/p") = Except.ok none ∧
    start oracleOk 9 ["/bin/sleep"] "/p" "/dev/null" "/dev/null" "/dev/null"
        (stateInit fsDirAt) =
      daemonize_commandRun 9 ["/bin/sleep"] (abspath "/p") "/dev/null"
        "/dev/null" "/dev/null"
        { stateInit fsDirAt with
            out := (stateInit fsDirAt).out ++ [startingMsg] } ∧
    status oracleOk "/p" (stateInit fsDirAt) =
      (POutcome.normal,
        { stateInit fsDirAt with
            out := (stateInit fsDirAt).out ++ [statusStoppedMsg] }) ∧
    stop oracleOk "/p" (stateInit fsDirAt) =
      (POutcome.normal,
        { stateInit fsDirAt with
            err := (stateInit fsDirAt).err ++ [stopMissingMsg (abspath "/p")] }) ∧
    restart oracleOk 9 ["/bin/sleep"] "/p" "/dev/null" "/dev/null" "/dev/null"
        (stateInit fsDirAt) =
      start oracleOk 9 ["/bin/sleep"] "/p" "/dev/null" "/dev/null" "/dev/null"
        { stateInit fsDirAt with
            err := (stateInit fsDirAt).err ++ [stopMissingMsg (abspath "/p")] } :=
  C10_nonregular_path_as_absent oracleOk 9 ["/bin/sleep"] "/p" "/dev/null"
    "/dev/null" "/dev/null" (stateInit fsDirAt) rfl
